import Mathlib

/-!
Verification of the OCI registry core of the repository against its
natural-language specification.  Go strings are embedded as `List Char`
(named `Str` below); Go functions are translated into executable Lean
definitions; a Go runtime panic (out-of-bounds index or slice) is
modelled by an `Option` result being `none`.
-/

namespace Harness

/-- Go strings are embedded as lists of characters. -/
abbrev Str := List Char

/-- Go `strings.Trim(s, "/")`: remove all leading and trailing `/` characters. -/
def trimSlashes (s : Str) : Str :=
  ((s.dropWhile (· == '/')).reverse.dropWhile (· == '/')).reverse

/-- Go `strings.Split(s, "/")` (the separator is a single slash): splitting the
empty string yields `[[]]`, and `n` separators yield `n+1` fields. -/
def splitOnSlash : Str → List Str
  | [] => [[]]
  | c :: rest =>
    if c == '/' then [] :: splitOnSlash rest
    else
      match splitOnSlash rest with
      | [] => [[c]]
      | s :: ss => (c :: s) :: ss

/-- The segment list the handler works on: trim slashes, then split. -/
def segmentsOf (url : Str) : List Str :=
  splitOnSlash (trimSlashes url)

/-- Go `strings.Join(parts, "/")`. -/
def joinSlash : List Str → Str
  | [] => []
  | [s] => s
  | s :: rest => s ++ '/' :: joinSlash rest

/-- Lowercase-hex character, as in go-digest's per-algorithm anchored
regular expressions `[a-f0-9]{n}`. -/
def isLowerHex (c : Char) : Bool :=
  ('0' ≤ c && c ≤ '9') || ('a' ≤ c && c ≤ 'f')

/-- Index of the first `:` in a string, as Go `strings.Index(s, ":")`
(with `none` for Go's `-1`). -/
def firstColonIdx : Str → Option Nat
  | [] => none
  | c :: rest =>
    if c == ':' then some 0
    else (firstColonIdx rest).map (· + 1)

/-- Embedding of `digest.Parse` from opencontainers/go-digest, specialised to
whether it succeeds: the string must be `<algorithm>:<encoded>` with a
non-empty algorithm and encoded part, the algorithm must be one of the
registered ones (sha256/sha384/sha512), and the encoded part must be
lowercase hex of the algorithm's length. -/
def digestValid (s : Str) : Bool :=
  match firstColonIdx s with
  | none => false
  | some i =>
    if i == 0 || i + 1 == s.length then false
    else
      let alg := s.take i
      let enc := s.drop (i + 1)
      let lenOK :=
        if alg == "sha256".data then enc.length == 64
        else if alg == "sha384".data then enc.length == 96
        else if alg == "sha512".data then enc.length == 128
        else false
      lenOK && enc.all isLowerHex

/-- The six route types of `getRouteType` in
`registry/app/api/handler/oci/base.go`. -/
inductive RouteType where
  | Manifests
  | Blobs
  | BlobsUploadsSession
  | Tags
  | Referrers
  | Invalid
deriving DecidableEq, Repr

/-- `MinSizeOfURLSegments` from base.go. -/
def MinSizeOfURLSegments : Nat := 5

/-- Embedding of `getRouteType` (base.go): trim slashes, split on `/`,
classify by the penultimate segment; fewer than five segments is `Invalid`. -/
def getRouteType (url : Str) : RouteType :=
  let segments := segmentsOf url
  if segments.length < MinSizeOfURLSegments then .Invalid
  else
    let typ := segments.getD (segments.length - 2) []
    if typ == "manifests".data then .Manifests
    else if typ == "blobs".data then
      if segments.getD (segments.length - 1) [] == "uploads".data then
        .BlobsUploadsSession
      else .Blobs
    else if typ == "uploads".data then .BlobsUploadsSession
    else if typ == "tags".data then .Tags
    else if typ == "referrers".data then .Referrers
    else .Invalid

/-- The tuple returned by `ExtractPathVars`. -/
structure PathVars where
  rootIdentifier : Str
  registry : Str
  image : Str
  ref : Str
  dgst : Str
  tag : Str
deriving DecidableEq, Repr

/-- Lookup in the query-parameter map produced by `GetQueryParamMap`
(a Go map, embedded as an association list with distinct keys). -/
def lookupParam (m : List (Str × Str)) (k : Str) : Option Str :=
  (m.find? (fun p => p.1 == k)).map (·.2)

/-- Embedding of `ExtractPathVars` (base.go).  The result is `none` exactly
when the Go code panics with an out-of-bounds index or slice:
`segments[1]` and `segments[2]` need at least 3 segments, the slice
`segments[3:len-2]` needs at least 5, and the upload-session slice
`segments[3:len-3]` needs at least 6. -/
def ExtractPathVars (path : Str) (paramMap : List (Str × Str)) : Option PathVars :=
  let segments := segmentsOf path
  let n := segments.length
  if n < 5 then none
  else
    let rootIdentifier := segments.getD 1 []
    let registry := segments.getD 2 []
    let image := joinSlash ((segments.drop 3).take (n - 5))
    let last := segments.getD (n - 1) []
    match getRouteType path with
    | .Manifests =>
      if digestValid last then
        some ⟨rootIdentifier, registry, image, last, last, []⟩
      else
        some ⟨rootIdentifier, registry, image, last, [], last⟩
    | .Blobs =>
      some ⟨rootIdentifier, registry, image, [], last, []⟩
    | .BlobsUploadsSession =>
      let penult := segments.getD (n - 2) []
      if last ≠ "uploads".data ∧ penult == "uploads".data then
        if n < 6 then none
        else
          let image2 := joinSlash ((segments.drop 3).take (n - 6))
          let dg := (lookupParam paramMap "digest".data).getD []
          some ⟨rootIdentifier, registry, image2, last, dg, []⟩
      else
        let dg := (lookupParam paramMap "digest".data).getD []
        some ⟨rootIdentifier, registry, image, [], dg, []⟩
    | .Tags =>
      some ⟨rootIdentifier, registry, image, [], [], []⟩
    | .Referrers =>
      some ⟨rootIdentifier, registry, image, [], last, []⟩
    | .Invalid =>
      some ⟨rootIdentifier, registry, image, [], [], []⟩

/-- Modelled from the spec (the glob matcher used by `MatchArtifactFilter` is
not part of the extracted sources): `*` matches any character sequence and
`?` matches any single character; other characters match themselves. -/
def globMatch (p s : Str) : Bool :=
  match p, s with
  | [], [] => true
  | '*' :: ps, [] => globMatch ps []
  | '*' :: ps, c :: cs => globMatch ps (c :: cs) || globMatch ('*' :: ps) cs
  | '?' :: ps, _ :: cs => globMatch ps cs
  | p0 :: ps, c :: cs => p0 == c && globMatch ps cs
  | _ :: _, [] => false
  | [], _ :: _ => false
termination_by (s.length, p.length)

/-- Modelled from the spec (`MatchArtifactFilter` itself is not part of the
extracted sources; I5 describes it): the value passes the filter iff it
matches the allow globs (an empty allow list matches everything) and
matches no block glob.  The Go function also returns an error value, for
which the spec describes no failure case, so the model never fails. -/
def MatchArtifactFilter (allowedPattern blockedPattern : List Str) (value : Str) : Bool :=
  (allowedPattern.isEmpty || allowedPattern.any (fun p => globMatch p value)) &&
    !(blockedPattern.any (fun p => globMatch p value))

/-- Registry type enum (`artifact.RegistryType`). -/
inductive RegistryType where
  | VIRTUAL
  | UPSTREAM
deriving DecidableEq, Repr

/-- The space fields `GetRegistryInfo` reads (`types.Space`). -/
structure Space where
  id : Int
  identifier : Str
deriving DecidableEq, Repr

/-- The registry fields `GetRegistryInfo` reads (`registrytypes.Registry`). -/
structure Registry where
  parentID : Int
  name : Str
  typ : RegistryType
  allowedPattern : List Str
  blockedPattern : List Str
deriving DecidableEq, Repr

/-- The `pkg.RegistryInfo` structure built by `GetRegistryInfo` (the
`URLBuilder` field carries no data the claims mention and is omitted). -/
structure RegistryInfo where
  rootIdentifier : Str
  rootParentID : Int
  parentID : Int
  regIdentifier : Str
  image : Str
  reference : Str
  dgst : Str
  tag : Str
  path : Str
deriving DecidableEq, Repr

/-- The distinct error returns of `GetRegistryInfo`:
`ValidateIdentifier` failure, `ErrCodeRootNotFound`, `ErrCodeRegNotFound`,
`ErrCodeParentNotFound`, `ErrCodeDenied`. -/
inductive RegErr where
  | validationFailed
  | rootNotFound
  | regNotFound
  | parentNotFound
  | denied
deriving DecidableEq, Repr

/-- The store and validation collaborators of `GetRegistryInfo`:
`metadata.ValidateIdentifier`, `SpaceStore.FindByRefCaseInsensitive`,
`RegistryDao.GetByRootParentIDAndName`, `SpaceStore.Find`.  Their
implementations are outside the handler; the handler is verified for every
behaviour of them. -/
structure Env where
  validIdentifier : Str → Bool
  findRootSpace : Str → Option Space
  getRegistry : Int → Str → Option Registry
  findSpace : Int → Option Space

/-- Embedding of `Handler.GetRegistryInfo` (base.go).  `none` models the Go
panic propagated from `ExtractPathVars`; otherwise the result is either one
of the handler's error codes or the built `RegistryInfo`.  The checks
appear in source order: identifier validation, root-space lookup, registry
lookup, parent-space lookup, empty root identifier, empty registry
identifier, the allow/block filter (only when both image and tag are
non-empty), and the upstream remote-support gate. -/
def GetRegistryInfo (env : Env) (path : Str) (paramMap : List (Str × Str))
    (remoteSupport : Bool) : Option (Except RegErr RegistryInfo) :=
  match ExtractPathVars path paramMap with
  | none => none
  | some v =>
    if !(env.validIdentifier v.rootIdentifier) then some (.error .validationFailed)
    else
      match env.findRootSpace v.rootIdentifier with
      | none => some (.error .rootNotFound)
      | some rootSpace =>
        match env.getRegistry rootSpace.id v.registry with
        | none => some (.error .regNotFound)
        | some registry =>
          match env.findSpace registry.parentID with
          | none => some (.error .parentNotFound)
          | some _parent =>
            let info : RegistryInfo :=
              { rootIdentifier := v.rootIdentifier
                rootParentID := rootSpace.id
                parentID := registry.parentID
                regIdentifier := v.registry
                image := v.image
                reference := v.ref
                dgst := v.dgst
                tag := v.tag
                path := path }
            if rootSpace.identifier == [] then some (.error .parentNotFound)
            else if v.registry == [] then some (.error .regNotFound)
            else if v.image ≠ [] ∧ v.tag ≠ [] ∧
                !(MatchArtifactFilter registry.allowedPattern registry.blockedPattern
                  (v.image ++ ':' :: v.tag)) then
              some (.error .denied)
            else if registry.typ == .UPSTREAM && !remoteSupport then
              some (.error .denied)
            else some (.ok info)

/-! ### Manifest-list walk (`getManifestList`, metadata controller) -/

/-- A child descriptor of a deserialized manifest list (the walk reads only
its digest string). -/
structure ManifestRef where
  dgstStr : Str
deriving DecidableEq, Repr

/-- The manifest fields the walk reads (`types.Manifest`). -/
structure DBManifest where
  dgst : Str
  configDigest : Str
  totalSize : Int
  createdAt : Int
deriving DecidableEq, Repr

/-- The decoded image-config fields used for the os/arch column. -/
structure ManifestConfig where
  os : Str
  arch : Str
deriving DecidableEq, Repr

/-- Outcome of `ManifestStore.FindManifestByDigest`: found, the
`store.ErrResourceNotFound` error, or any other error. -/
inductive FindResult where
  | found (m : DBManifest)
  | notFound
  | dbErr
deriving Repr

/-- Errors of the walk: `types.NewDigest` failure, the wrapped
`manifest: %s not found` error, another store error, or a
`getManifestConfig` failure. -/
inductive MErr where
  | digestInvalid
  | manifestNotFound (d : Str)
  | storeErr
  | configErr
deriving DecidableEq, Repr

/-- The row assembled by `getManifestDetails`. -/
structure ManifestDetails where
  dgst : Str
  osArch : Str
  size : Int
  createdAt : Int
  downloads : Int
deriving DecidableEq, Repr

/-- The collaborators of `getManifestList`: `types.NewDigest`,
`ManifestStore.FindManifestByDigest` and `getManifestConfig`.  The walk is
verified for every behaviour of them. -/
structure MEnv where
  newDigest : Str → Option Str
  findManifestByDigest : Int → Str → Str → FindResult
  getManifestConfig : Str → Option (Option ManifestConfig)

/-- The registry fields the walk reads. -/
structure MRegistry where
  id : Int
  typ : RegistryType
deriving DecidableEq, Repr

/-- Embedding of `getManifestDetails`: the os/arch field is only set when a
config was decoded. -/
def getManifestDetails (m : DBManifest) (cfg : Option ManifestConfig)
    (downloads : Int) : ManifestDetails :=
  { dgst := m.dgst
    osArch := match cfg with
      | some c => c.os ++ '/' :: c.arch
      | none => []
    size := m.totalSize
    createdAt := m.createdAt
    downloads := downloads }

/-- Embedding of `getManifestList` (metadata controller): walk the child
descriptors in order; a digest that fails to parse aborts, a child whose
manifest is missing is skipped when the registry is UPSTREAM and aborts
with `manifestNotFound` otherwise, any other store error aborts, and a
config-fetch failure aborts. -/
def getManifestList (env : MEnv) (registry : MRegistry) (image : Str)
    (downloads : Int) : List ManifestRef → Except MErr (List ManifestDetails)
  | [] => .ok []
  | e :: rest =>
    match env.newDigest e.dgstStr with
    | none => .error .digestInvalid
    | some d =>
      match env.findManifestByDigest registry.id image d with
      | .found m =>
        match env.getManifestConfig m.configDigest with
        | none => .error .configErr
        | some cfg =>
          match getManifestList env registry image downloads rest with
          | .error err => .error err
          | .ok tail => .ok (getManifestDetails m cfg downloads :: tail)
      | .notFound =>
        if registry.typ == .UPSTREAM then
          getManifestList env registry image downloads rest
        else
          .error (.manifestNotFound d)
      | .dbErr => .error .storeErr

/-- One child descriptor processes successfully: its digest parses, its
manifest is found, and its config fetch succeeds. -/
def processOK (env : MEnv) (registry : MRegistry) (image : Str)
    (e : ManifestRef) : Prop :=
  ∃ d m cfg, env.newDigest e.dgstStr = some d ∧
    env.findManifestByDigest registry.id image d = .found m ∧
    env.getManifestConfig m.configDigest = some cfg

/-! ### Registry deletion (`deleteRegistryWithAudit`, metadata controller) -/

/-- A per-registry statistics row. -/
structure StatRow where
  registryID : Int
  payload : Int
deriving DecidableEq, Repr

/-- An image row, scoped to its registry. -/
structure ImageRow where
  registryID : Int
  name : Str
deriving DecidableEq, Repr

/-- A registry row, keyed by parent space and name. -/
structure RegRow where
  parentID : Int
  name : Str
deriving DecidableEq, Repr

/-- A blob record (metadata store); blobs are stored once per tenant root. -/
structure BlobRow where
  dgst : Str
  rootParentID : Int
  size : Int
deriving DecidableEq, Repr

/-- The persistent state `deleteRegistryWithAudit` can touch, together with
the blob stores it must not touch: stat rows, image rows, registry rows,
blob records, the content-addressed objects, and the audit log. -/
structure DB where
  downloadStats : List StatRow
  bandwidthStats : List StatRow
  images : List ImageRow
  registries : List RegRow
  blobs : List BlobRow
  blobObjects : List (Str × List Nat)
  auditLog : List Str
deriving Repr

/-- Modelled from the spec (the store layer is not part of the extracted
sources): `ImageStore.DeleteDownloadStatByRegistryID` removes the
download-stat rows of the registry. -/
def deleteDownloadStatByRegistryID (db : DB) (regID : Int) : DB :=
  { db with downloadStats := db.downloadStats.filter (fun r => r.registryID ≠ regID) }

/-- Modelled from the spec (the store layer is not part of the extracted
sources): `ImageStore.DeleteBandwidthStatByRegistryID` removes the
bandwidth-stat rows of the registry. -/
def deleteBandwidthStatByRegistryID (db : DB) (regID : Int) : DB :=
  { db with bandwidthStats := db.bandwidthStats.filter (fun r => r.registryID ≠ regID) }

/-- Modelled from the spec (the store layer is not part of the extracted
sources): `ImageStore.DeleteByRegistryID` removes the image rows of the
registry. -/
def deleteImagesByRegistryID (db : DB) (regID : Int) : DB :=
  { db with images := db.images.filter (fun r => r.registryID ≠ regID) }

/-- Modelled from the spec (the store layer is not part of the extracted
sources): `RegistryRepository.Delete` removes the registry row keyed by
parent space and name. -/
def deleteRegistryRow (db : DB) (parentID : Int) (name : Str) : DB :=
  { db with registries :=
      db.registries.filter (fun r => ¬(r.parentID = parentID ∧ r.name = name)) }

/-- Embedding of `deleteRegistryWithAudit` (metadata controller), in source
order: delete download stats, bandwidth stats, images, then the registry
row, then write an audit-log entry.  Store failures abort the enclosing
transaction (`tx.WithTx`), leaving the state unchanged, so the successful
path shown here is the only one that modifies state. -/
def deleteRegistryWithAudit (db : DB) (regID : Int) (parentID : Int)
    (regIdentifier : Str) : DB :=
  let db := deleteDownloadStatByRegistryID db regID
  let db := deleteBandwidthStatByRegistryID db regID
  let db := deleteImagesByRegistryID db regID
  let db := deleteRegistryRow db parentID regIdentifier
  { db with auditLog := db.auditLog ++ ["registry deleted".data] }

/-! ### Client setup details (`GenerateClientSetupDetails`, metadata controller) -/

/-- `pat` is a prefix of `s`. -/
def hasPre : Str → Str → Bool
  | [], _ => true
  | _ :: _, [] => false
  | p :: ps, c :: cs => p == c && hasPre ps cs

/-- Go `strings.ReplaceAll(s, pat, rep)` for a non-empty pattern:
replace the leftmost, non-overlapping occurrences of `pat` by `rep`.
For an empty pattern the string is returned unchanged (Go instead
intersperses `rep`; every pattern used here is non-empty). -/
def replaceAll (pat rep : Str) : Str → Str
  | [] => []
  | c :: cs =>
    if _h : hasPre pat (c :: cs) ∧ 0 < pat.length then
      rep ++ replaceAll pat rep ((c :: cs).drop pat.length)
    else
      c :: replaceAll pat rep cs
termination_by s => s.length
decreasing_by
  · simp only [List.length_drop, List.length_cons]
    omega
  · simp

/-- Modelled from the spec (`common.GetHost` is not part of the extracted
sources): the host part of a URL without its scheme, i.e. everything up to
the first `/`. -/
def GetHost (s : Str) : Str :=
  s.takeWhile (· ≠ '/')

/-- A client-setup command (`artifact.ClientSetupStepCommand`); the Go
pointers are always non-nil here, so label and value are plain strings. -/
structure SetupStepCommand where
  label : Str
  value : Str
deriving DecidableEq, Repr

/-- `artifact.ClientSetupStepType`. -/
inductive StepType where
  | Static
  | GenerateToken
deriving DecidableEq, Repr

/-- `artifact.ClientSetupStep`; the commands pointer is nil for the
generate-token step. -/
structure SetupStep where
  header : Str
  commands : Option (List SetupStepCommand)
  typ : StepType
deriving DecidableEq, Repr

/-- `artifact.ClientSetupSection`. -/
structure SetupSection where
  header : Str
  steps : Option (List SetupStep)
deriving DecidableEq, Repr

/-- `artifact.ClientSetupDetails`. -/
structure ClientSetupDetails where
  mainHeader : Str
  secHeader : Str
  sections : List SetupSection
deriving DecidableEq, Repr

/-- One guarded substitution step of `replaceText`: replace `pat` by `rep`
when the guard holds (the Go code guards each replacement on its value
being non-empty). -/
def applyWhen (b : Prop) [Decidable b] (pat rep : Str) (v : Str) : Str :=
  if b then replaceAll pat rep v else v

/-- One optional substitution step of `replaceText`: replace `pat` when the
optional value was supplied (the Go code guards on the pointer being
non-nil). -/
def applyOpt (pat : Str) (o : Option Str) (v : Str) : Str :=
  match o with
  | some rep => replaceAll pat rep v
  | none => v

/-- The label part of `replaceText` (get_client_setup_details.go): only
`<USERNAME>` is substituted in labels, and only when the username is
non-empty. -/
def substLabel (username : Str) (l : Str) : Str :=
  applyWhen (username ≠ []) "<USERNAME>".data username l

/-- The value part of `replaceText`, applied in source order (innermost
first): `<USERNAME>` when the username is non-empty, `<HOSTNAME>` and
`<LOGIN_HOSTNAME>` when the hostname is non-empty (the login hostname is
`GetHost` of it), `<REGISTRY_NAME>` when the registry name is non-empty,
`<IMAGE_NAME>` when an image was supplied and `<TAG>` when a tag was
supplied. -/
def substValue (username hostname repoName : Str) (image tag : Option Str)
    (v : Str) : Str :=
  applyOpt "<TAG>".data tag
    (applyOpt "<IMAGE_NAME>".data image
      (applyWhen (repoName ≠ []) "<REGISTRY_NAME>".data repoName
        (applyWhen (hostname ≠ []) "<LOGIN_HOSTNAME>".data (GetHost hostname)
          (applyWhen (hostname ≠ []) "<HOSTNAME>".data hostname
            (applyWhen (username ≠ []) "<USERNAME>".data username v)))))

/-- Embedding of `replaceText` (get_client_setup_details.go): the label and
value of one command after placeholder substitution. -/
def replaceText (username hostname repoName : Str) (image tag : Option Str)
    (c : SetupStepCommand) : SetupStepCommand :=
  ⟨substLabel username c.label, substValue username hostname repoName image tag c.value⟩

/-- Embedding of `replacePlaceholders`: apply `replaceText` to every command
of every step of every section, skipping nil steps and nil commands. -/
def replacePlaceholders (details : ClientSetupDetails) (username hostname repoName : Str)
    (image tag : Option Str) : ClientSetupDetails :=
  { details with sections := details.sections.map (fun s =>
      { s with steps := s.steps.map (fun steps => steps.map (fun st =>
          { st with commands := st.commands.map (fun cs =>
              cs.map (replaceText username hostname repoName image tag)) })) }) }

/-- The HELM client-setup template built by `GenerateClientSetupDetails`. -/
def helmTemplate : ClientSetupDetails :=
  { mainHeader := "Helm Client Setup".data
    secHeader := "Follow these instructions to install/use Helm artifacts or compatible packages.".data
    sections :=
      [ { header := "Login to Helm".data
          steps := some
            [ { header := "Run this Helm command in your terminal to authenticate the client.".data
                commands := some
                  [ ⟨[], "helm registry login <LOGIN_HOSTNAME>".data⟩,
                    ⟨"Username: <USERNAME>".data, "<USERNAME>".data⟩,
                    ⟨"Password: *see step 2*".data, []⟩ ]
                typ := .Static },
              { header := "For the Password field above, generate an identity token".data
                commands := none
                typ := .GenerateToken } ] },
        { header := "Push a version".data
          steps := some
            [ { header := ("Run this Helm push command in your terminal to push a chart in OCI form." ++
                  " Note: Make sure you add oci:// prefix to the repository URL.").data
                commands := some
                  [ ⟨[], "helm push <CHART_TGZ_FILE> oci://<HOSTNAME>/<REGISTRY_NAME>".data⟩ ]
                typ := .Static } ] },
        { header := "Pull a version".data
          steps := some
            [ { header := "Run this Helm command in your terminal to pull a specific chart version.".data
                commands := some
                  [ ⟨[], "helm pull oci://<HOSTNAME>/<REGISTRY_NAME>/<IMAGE_NAME> --version <TAG>".data⟩ ]
                typ := .Static } ] } ] }

/-- The Docker client-setup template built by `GenerateClientSetupDetails`
(sections in source order: login, retag-and-push, pull). -/
def dockerTemplate : ClientSetupDetails :=
  { mainHeader := "Docker Client Setup".data
    secHeader := "Follow these instructions to install/use Docker artifacts or compatible packages.".data
    sections :=
      [ { header := "Login to Docker".data
          steps := some
            [ { header := "Run this Docker command in your terminal to authenticate the client.".data
                commands := some
                  [ ⟨[], "docker login <LOGIN_HOSTNAME>".data⟩,
                    ⟨"Username: <USERNAME>".data, "<USERNAME>".data⟩,
                    ⟨"Password: *see step 2*".data, []⟩ ]
                typ := .Static },
              { header := "For the Password field above, generate an identity token".data
                commands := none
                typ := .GenerateToken } ] },
        { header := "Retag and Push the image".data
          steps := some
            [ { header := "Run this Docker command in your terminal to tag the image.".data
                commands := some
                  [ ⟨[], "docker tag <IMAGE_NAME>:<TAG> <HOSTNAME>/<REGISTRY_NAME>/<IMAGE_NAME>:<TAG>".data⟩ ]
                typ := .Static },
              { header := "Run this Docker command in your terminal to push the image.".data
                commands := some
                  [ ⟨[], "docker push <HOSTNAME>/<REGISTRY_NAME>/<IMAGE_NAME>:<TAG>".data⟩ ]
                typ := .Static } ] },
        { header := "Pull an image".data
          steps := some
            [ { header := "Run this Docker command in your terminal to pull image.".data
                commands := some
                  [ ⟨[], "docker pull <HOSTNAME>/<REGISTRY_NAME>/<IMAGE_NAME>:<TAG>".data⟩ ]
                typ := .Static } ] } ] }

/-- Embedding of `GenerateClientSetupDetails`: choose the HELM template when
the package type is `HELM` and the Docker template otherwise, then run the
placeholder substitution.  The username comes from the session principal
and the hostname and registry name are derived from the request context by
collaborators outside this file; they are parameters here. -/
def GenerateClientSetupDetails (packageType : Str) (username hostname registryName : Str)
    (image tag : Option Str) : ClientSetupDetails :=
  replacePlaceholders (if packageType == "HELM".data then helmTemplate else dockerTemplate)
    username hostname registryName image tag

/-- All command values of a client-setup structure, in order. -/
def cmdValues (d : ClientSetupDetails) : List Str :=
  d.sections.flatMap (fun s =>
    (s.steps.getD []).flatMap (fun st => (st.commands.getD []).map (·.value)))

/-- All command labels of a client-setup structure, in order. -/
def cmdLabels (d : ClientSetupDetails) : List Str :=
  d.sections.flatMap (fun s =>
    (s.steps.getD []).flatMap (fun st => (st.commands.getD []).map (·.label)))

/-! ### Route dispatch of invalid paths -/

/-- The OCI error code the dispatcher emits for an unparseable name. -/
inductive OCIErrorCode where
  | NAME_UNKNOWN
deriving DecidableEq, Repr

/-- What the dispatcher does with a classified route: an optional error
envelope and whether any storage was accessed. -/
structure DispatchOutcome where
  errCode : Option OCIErrorCode
  storageTouched : Bool
deriving DecidableEq, Repr

/-- Modelled from the spec (the HTTP dispatcher that turns an `Invalid`
route into an error envelope is not part of the extracted sources; I7
describes it): an `Invalid` route yields a structured `NAME_UNKNOWN` error
and no storage access, while every other route is dispatched to its engine,
which may touch storage. -/
def dispatchRoute (rt : RouteType) : DispatchOutcome :=
  if rt == .Invalid then ⟨some .NAME_UNKNOWN, false⟩ else ⟨none, true⟩

/-! ### Theorems: route classification and path-variable extraction -/

theorem getRouteType_invalid_of_short (url : Str)
    (h : (segmentsOf url).length < 5) : getRouteType url = .Invalid := by
  unfold getRouteType MinSizeOfURLSegments
  simp only [if_pos h]

theorem five_le_of_route_ne_invalid (url : Str)
    (h : getRouteType url ≠ .Invalid) : 5 ≤ (segmentsOf url).length := by
  by_contra hlt
  exact h (getRouteType_invalid_of_short url (by omega))

/-- C2: every URL path is classified as exactly one of the six route types;
a path with fewer than five segments (after trimming slashes) is
classified `Invalid`; an `Invalid` route yields a structured
`NAME_UNKNOWN` error without touching storage. -/
theorem routeType_total_and_short_invalid :
    (∀ url : Str, getRouteType url = .Manifests ∨ getRouteType url = .Blobs ∨
      getRouteType url = .BlobsUploadsSession ∨ getRouteType url = .Tags ∨
      getRouteType url = .Referrers ∨ getRouteType url = .Invalid) ∧
    (∀ url : Str, (segmentsOf url).length < 5 → getRouteType url = .Invalid) ∧
    (∀ url : Str, getRouteType url = .Invalid →
      dispatchRoute (getRouteType url) = ⟨some .NAME_UNKNOWN, false⟩) := by
  refine ⟨fun url => ?_, fun url h => getRouteType_invalid_of_short url h, fun url h => ?_⟩
  · cases getRouteType url <;> simp
  · rw [h]
    rfl

theorem routeType_total_and_short_invalid_witness :
    getRouteType "/v2/a".data = .Invalid ∧
    dispatchRoute (getRouteType "/v2/a".data) = ⟨some .NAME_UNKNOWN, false⟩ :=
  ⟨routeType_total_and_short_invalid.2.1 "/v2/a".data (by decide),
   routeType_total_and_short_invalid.2.2 "/v2/a".data
     (routeType_total_and_short_invalid.2.1 "/v2/a".data (by decide))⟩

/-- C3: on a `Manifests` route, the extractor inspects the final segment:
a valid digest becomes the digest (tag empty), anything else becomes the
tag (digest empty); the reference always equals the final segment. -/
theorem extract_manifest_reference (path : Str) (paramMap : List (Str × Str))
    (v : PathVars)
    (hroute : getRouteType path = .Manifests)
    (hv : ExtractPathVars path paramMap = some v) :
    v.ref = (segmentsOf path).getD ((segmentsOf path).length - 1) [] ∧
    (digestValid ((segmentsOf path).getD ((segmentsOf path).length - 1) []) = true →
      v.dgst = (segmentsOf path).getD ((segmentsOf path).length - 1) [] ∧ v.tag = []) ∧
    (digestValid ((segmentsOf path).getD ((segmentsOf path).length - 1) []) = false →
      v.tag = (segmentsOf path).getD ((segmentsOf path).length - 1) [] ∧ v.dgst = []) := by
  have h5 : ¬ (segmentsOf path).length < 5 := by
    have := five_le_of_route_ne_invalid path (by rw [hroute]; simp)
    omega
  unfold ExtractPathVars at hv
  simp only [if_neg h5, hroute] at hv
  by_cases hd : digestValid ((segmentsOf path).getD ((segmentsOf path).length - 1) []) = true
  · rw [if_pos hd] at hv
    cases hv
    exact ⟨rfl, fun _ => ⟨rfl, rfl⟩, fun hfalse => by rw [hd] at hfalse; cases hfalse⟩
  · rw [if_neg hd] at hv
    cases hv
    refine ⟨rfl, fun htrue => absurd htrue hd, fun _ => ⟨rfl, rfl⟩⟩

theorem extract_manifest_reference_witness :
    (ExtractPathVars "/v2/a/b/img/manifests/v1".data [] =
      some ⟨"a".data, "b".data, "img".data, "v1".data, [], "v1".data⟩) ∧
    ("v1".data = (segmentsOf "/v2/a/b/img/manifests/v1".data).getD
      ((segmentsOf "/v2/a/b/img/manifests/v1".data).length - 1) []) ∧
    (⟨"a".data, "b".data, "img".data, "v1".data, [], "v1".data⟩ : PathVars).tag = "v1".data := by
  refine ⟨by decide, by decide, ?_⟩
  have h := extract_manifest_reference "/v2/a/b/img/manifests/v1".data []
    ⟨"a".data, "b".data, "img".data, "v1".data, [], "v1".data⟩ (by decide) (by decide)
  exact (h.2.2 (by decide)).1

theorem uploads_penult_of_session {path : Str}
    (hroute : getRouteType path = .BlobsUploadsSession)
    (hlast : (segmentsOf path).getD ((segmentsOf path).length - 1) [] ≠ "uploads".data) :
    ((segmentsOf path).getD ((segmentsOf path).length - 2) [] == "uploads".data) = true := by
  have h5 : ¬ (segmentsOf path).length < 5 := by
    have := five_le_of_route_ne_invalid path (by rw [hroute]; simp)
    omega
  unfold getRouteType MinSizeOfURLSegments at hroute
  simp only [if_neg h5] at hroute
  by_cases h1 : ((segmentsOf path).getD ((segmentsOf path).length - 2) [] ==
      "manifests".data) = true
  · rw [if_pos h1] at hroute
    cases hroute
  · rw [if_neg h1] at hroute
    by_cases h2 : ((segmentsOf path).getD ((segmentsOf path).length - 2) [] ==
        "blobs".data) = true
    · rw [if_pos h2] at hroute
      by_cases h3 : ((segmentsOf path).getD ((segmentsOf path).length - 1) [] ==
          "uploads".data) = true
      · exact absurd (eq_of_beq h3) hlast
      · rw [if_neg h3] at hroute
        cases hroute
    · rw [if_neg h2] at hroute
      by_cases h4 : ((segmentsOf path).getD ((segmentsOf path).length - 2) [] ==
          "uploads".data) = true
      · exact h4
      · rw [if_neg h4] at hroute
        by_cases h5x : ((segmentsOf path).getD ((segmentsOf path).length - 2) [] ==
            "tags".data) = true
        · rw [if_pos h5x] at hroute
          cases hroute
        · rw [if_neg h5x] at hroute
          by_cases h6x : ((segmentsOf path).getD ((segmentsOf path).length - 2) [] ==
              "referrers".data) = true
          · rw [if_pos h6x] at hroute
            cases hroute
          · rw [if_neg h6x] at hroute
            cases hroute

/-- C4: on a blob-upload route, a final segment equal to the literal
`uploads` denotes a new upload with no session reference; otherwise the
final segment is captured as the session reference and excluded from the
image name; a `digest` query parameter, when present, is used as the
digest. -/
theorem extract_upload_session (path : Str) (paramMap : List (Str × Str))
    (v : PathVars)
    (hroute : getRouteType path = .BlobsUploadsSession)
    (hv : ExtractPathVars path paramMap = some v) :
    ((segmentsOf path).getD ((segmentsOf path).length - 1) [] = "uploads".data →
      v.ref = []) ∧
    ((segmentsOf path).getD ((segmentsOf path).length - 1) [] ≠ "uploads".data →
      v.ref = (segmentsOf path).getD ((segmentsOf path).length - 1) [] ∧
      v.image = joinSlash (((segmentsOf path).drop 3).take ((segmentsOf path).length - 6))) ∧
    (∀ d, lookupParam paramMap "digest".data = some d → v.dgst = d) := by
  have h5 : ¬ (segmentsOf path).length < 5 := by
    have := five_le_of_route_ne_invalid path (by rw [hroute]; simp)
    omega
  unfold ExtractPathVars at hv
  simp only [if_neg h5, hroute] at hv
  by_cases hlast : (segmentsOf path).getD ((segmentsOf path).length - 1) [] = "uploads".data
  · rw [if_neg (by intro hc; exact hc.1 hlast)] at hv
    cases hv
    refine ⟨fun _ => rfl, fun h => absurd hlast h, fun d hd => ?_⟩
    show (lookupParam paramMap "digest".data).getD [] = d
    rw [hd]
    rfl
  · have hpen := uploads_penult_of_session hroute hlast
    rw [if_pos ⟨hlast, hpen⟩] at hv
    by_cases h6 : (segmentsOf path).length < 6
    · rw [if_pos h6] at hv
      cases hv
    · rw [if_neg h6] at hv
      cases hv
      refine ⟨fun h => absurd h hlast, fun _ => ⟨rfl, rfl⟩, fun d hd => ?_⟩
      show (lookupParam paramMap "digest".data).getD [] = d
      rw [hd]
      rfl

theorem extract_upload_session_witness :
    (ExtractPathVars "/v2/a/b/img/blobs/uploads/sess".data
        [("digest".data, "sha256:ff".data)] =
      some ⟨"a".data, "b".data, "img".data, "sess".data, "sha256:ff".data, []⟩) ∧
    (⟨"a".data, "b".data, "img".data, "sess".data, "sha256:ff".data, []⟩ : PathVars).ref =
      "sess".data := by
  refine ⟨by decide, ?_⟩
  have h := extract_upload_session "/v2/a/b/img/blobs/uploads/sess".data
    [("digest".data, "sha256:ff".data)]
    ⟨"a".data, "b".data, "img".data, "sess".data, "sha256:ff".data, []⟩
    (by decide) (by decide)
  exact (h.2.1 (by decide)).1

/-- C9 counterexample: the five-segment path `/v2/a/b/uploads/c` is accepted
by the five-segment guard but still drives the extractor into the Go slice
`segments[3 : len-3]` with bounds `[3:2]`, an out-of-bounds slice
(modelled by the `none` result). -/
theorem extract_oob_counterexample :
    5 ≤ (segmentsOf "/v2/a/b/uploads/c".data).length ∧
    ExtractPathVars "/v2/a/b/uploads/c".data [] = none := by decide

/-- C9 (amended): the extractor performs no out-of-bounds access for every
path of at least five segments except the blob-upload-session shape with
exactly five segments (penultimate segment `uploads`, final segment not
`uploads`), which hits the image-join slice out of bounds; every path of
fewer than five segments is out of bounds. -/
theorem extract_oob_amended (path : Str) (paramMap : List (Str × Str)) :
    (5 ≤ (segmentsOf path).length →
      ¬((segmentsOf path).length = 5 ∧ (segmentsOf path).getD 3 [] = "uploads".data ∧
        (segmentsOf path).getD 4 [] ≠ "uploads".data) →
      (ExtractPathVars path paramMap).isSome = true) ∧
    ((segmentsOf path).length < 5 → ExtractPathVars path paramMap = none) := by
  constructor
  · intro hge hexc
    have h5 : ¬ (segmentsOf path).length < 5 := by omega
    unfold ExtractPathVars
    cases hrt : getRouteType path with
    | Manifests =>
      simp only [if_neg h5, hrt]
      by_cases hd : digestValid ((segmentsOf path).getD ((segmentsOf path).length - 1) []) = true
      · rw [if_pos hd]
        rfl
      · rw [if_neg hd]
        rfl
    | Blobs => simp only [if_neg h5, hrt]; rfl
    | Tags => simp only [if_neg h5, hrt]; rfl
    | Referrers => simp only [if_neg h5, hrt]; rfl
    | Invalid => simp only [if_neg h5, hrt]; rfl
    | BlobsUploadsSession =>
      simp only [if_neg h5, hrt]
      by_cases hcond : (segmentsOf path).getD ((segmentsOf path).length - 1) [] ≠ "uploads".data ∧
          ((segmentsOf path).getD ((segmentsOf path).length - 2) [] == "uploads".data) = true
      · rw [if_pos hcond]
        have h6 : ¬ (segmentsOf path).length < 6 := by
          intro h6
          have hn5 : (segmentsOf path).length = 5 := by omega
          apply hexc
          refine ⟨hn5, ?_, ?_⟩
          · have := hcond.2
            rw [hn5] at this
            exact eq_of_beq this
          · have := hcond.1
            rw [hn5] at this
            exact this
        rw [if_neg h6]
        rfl
      · rw [if_neg hcond]
        rfl
  · intro hlt
    unfold ExtractPathVars
    simp only [if_pos hlt]

theorem extract_oob_amended_witness :
    (ExtractPathVars "/v2/a/b/img/manifests/t".data []).isSome = true ∧
    ExtractPathVars "/v2/a".data [] = none :=
  ⟨(extract_oob_amended "/v2/a/b/img/manifests/t".data []).1 (by decide) (by decide),
   (extract_oob_amended "/v2/a".data []).2 (by decide)⟩

/-! ### Theorems: registry-info resolution and policy -/

theorem matchFilter_false_of_blocked {allowed blocked : List Str} {value p : Str}
    (hp : p ∈ blocked) (hm : globMatch p value = true) :
    MatchArtifactFilter allowed blocked value = false := by
  unfold MatchArtifactFilter
  have hb : blocked.any (fun q => globMatch q value) = true :=
    List.any_eq_true.mpr ⟨p, hp, hm⟩
  rw [hb]
  simp

/-- C1: for a request carrying both an image and a tag, once the
identifier validates and the root space, registry and parent space
resolve, registry-info resolution returns the DENIED error code whenever
`image:tag` fails the allow/block filter — in particular whenever it
matches a blocked glob — and this holds for any remote-support flag and
independently of any authentication state (the handler consults none). -/
theorem registry_info_policy_denied (env : Env) (path : Str)
    (paramMap : List (Str × Str)) (remoteSupport : Bool) (v : PathVars)
    (rootSpace : Space) (registry : Registry) (parent : Space)
    (hv : ExtractPathVars path paramMap = some v)
    (himg : v.image ≠ []) (htag : v.tag ≠ [])
    (hvalid : env.validIdentifier v.rootIdentifier = true)
    (hroot : env.findRootSpace v.rootIdentifier = some rootSpace)
    (hreg : env.getRegistry rootSpace.id v.registry = some registry)
    (hparent : env.findSpace registry.parentID = some parent)
    (hrid : rootSpace.identifier ≠ []) (hregid : v.registry ≠ [])
    (hden : MatchArtifactFilter registry.allowedPattern registry.blockedPattern
        (v.image ++ ':' :: v.tag) = false ∨
      ∃ p ∈ registry.blockedPattern, globMatch p (v.image ++ ':' :: v.tag) = true) :
    GetRegistryInfo env path paramMap remoteSupport = some (.error .denied) := by
  have hmf : MatchArtifactFilter registry.allowedPattern registry.blockedPattern
      (v.image ++ ':' :: v.tag) = false := by
    cases hden with
    | inl h => exact h
    | inr h =>
      obtain ⟨p, hp, hm⟩ := h
      exact matchFilter_false_of_blocked hp hm
  unfold GetRegistryInfo
  simp only [hv, hvalid, hroot, hreg, hparent, Bool.not_true, Bool.false_eq_true, if_false,
    beq_iff_eq]
  rw [if_neg hrid, if_neg hregid, if_pos ⟨himg, htag, by rw [hmf]; rfl⟩]

theorem registry_info_policy_denied_witness :
    GetRegistryInfo
      { validIdentifier := fun _ => true
        findRootSpace := fun _ => some ⟨7, "root".data⟩
        getRegistry := fun _ _ => some ⟨3, "reg".data, .VIRTUAL, [], ["*:latest".data]⟩
        findSpace := fun _ => some ⟨3, "p".data⟩ }
      "/v2/root/reg/foo/manifests/latest".data [] true = some (.error .denied) :=
  registry_info_policy_denied _ "/v2/root/reg/foo/manifests/latest".data [] true
    ⟨"root".data, "reg".data, "foo".data, "latest".data, [], "latest".data⟩
    ⟨7, "root".data⟩ ⟨3, "reg".data, .VIRTUAL, [], ["*:latest".data]⟩ ⟨3, "p".data⟩
    (by decide) (by decide) (by decide) rfl rfl rfl rfl (by decide) (by decide)
    (Or.inr ⟨"*:latest".data, by decide, by simp [globMatch]⟩)

/-- The same store environment with every registry's allow and block
patterns replaced by `a` and `b`. -/
def overridePatterns (env : Env) (a b : List Str) : Env :=
  { env with
      getRegistry := fun i n =>
        (env.getRegistry i n).map
          (fun r => { r with allowedPattern := a, blockedPattern := b }) }

/-- C8: for a request whose parsed image or parsed tag is empty — every
blob request, and every manifest request addressed by digest — registry-info
resolution never evaluates the allow/block filter: its outcome is unchanged
under an arbitrary replacement of the registry's allowed and blocked
patterns, so such a request is never denied on their account. -/
theorem registry_info_filter_unused (env : Env) (a b : List Str)
    (path : Str) (paramMap : List (Str × Str)) (remoteSupport : Bool) (v : PathVars)
    (hv : ExtractPathVars path paramMap = some v)
    (h : v.image = [] ∨ v.tag = []) :
    GetRegistryInfo (overridePatterns env a b) path paramMap remoteSupport
      = GetRegistryInfo env path paramMap remoteSupport := by
  have hnc : ∀ X : Prop, ¬(v.image ≠ [] ∧ v.tag ≠ [] ∧ X) := fun X hc =>
    h.elim (fun h1 => hc.1 h1) (fun h2 => hc.2.1 h2)
  unfold overridePatterns GetRegistryInfo
  simp only [hv]
  cases hvl : env.validIdentifier v.rootIdentifier
  · simp [hvl]
  · simp only [hvl, Bool.not_true, Bool.false_eq_true, if_false]
    cases hroot : env.findRootSpace v.rootIdentifier with
    | none => rfl
    | some rootSpace =>
      cases hreg : env.getRegistry rootSpace.id v.registry with
      | none => simp [hreg]
      | some r =>
        simp only [hreg, Option.map_some']
        cases hps : env.findSpace r.parentID with
        | none => rfl
        | some par =>
          have hnL : ¬(¬v.image = [] ∧ ¬v.tag = [] ∧
              MatchArtifactFilter a b (v.image ++ ':' :: v.tag) = false) := fun hc =>
            h.elim (fun h1 => hc.1 h1) (fun h2 => hc.2.1 h2)
          have hnR : ¬(¬v.image = [] ∧ ¬v.tag = [] ∧
              MatchArtifactFilter r.allowedPattern r.blockedPattern
                (v.image ++ ':' :: v.tag) = false) := fun hc =>
            h.elim (fun h1 => hc.1 h1) (fun h2 => hc.2.1 h2)
          by_cases hri : rootSpace.identifier == []
          · simp [hri]
          · by_cases hre : v.registry == []
            · simp [hri, hre]
            · simp [hri, hre, hnL, hnR]

theorem registry_info_filter_unused_witness :
    GetRegistryInfo
      { validIdentifier := fun _ => true
        findRootSpace := fun _ => some ⟨7, "root".data⟩
        getRegistry := fun _ _ =>
          some ⟨3, "reg".data, .VIRTUAL, ["zzz".data], ["*".data]⟩
        findSpace := fun _ => some ⟨3, "p".data⟩ }
      "/v2/root/reg/foo/blobs/sha256:aa".data [] true
      = GetRegistryInfo
        { validIdentifier := fun _ => true
          findRootSpace := fun _ => some ⟨7, "root".data⟩
          getRegistry := fun _ _ => some ⟨3, "reg".data, .VIRTUAL, [], []⟩
          findSpace := fun _ => some ⟨3, "p".data⟩ }
        "/v2/root/reg/foo/blobs/sha256:aa".data [] true :=
  registry_info_filter_unused
    { validIdentifier := fun _ => true
      findRootSpace := fun _ => some ⟨7, "root".data⟩
      getRegistry := fun _ _ => some ⟨3, "reg".data, .VIRTUAL, [], []⟩
      findSpace := fun _ => some ⟨3, "p".data⟩ }
    ["zzz".data] ["*".data] "/v2/root/reg/foo/blobs/sha256:aa".data [] true
    ⟨"root".data, "reg".data, "foo".data, [], "sha256:aa".data, []⟩
    (by decide) (Or.inr rfl)

/-- C10: for an UPSTREAM registry, registry-info resolution returns the
DENIED error code whenever the caller's remote-support flag is false, even
though path parsing, identifier validation, root, registry and parent
lookups all succeed and the allow/block filter passes (or is skipped). -/
theorem registry_info_upstream_denied (env : Env) (path : Str)
    (paramMap : List (Str × Str)) (v : PathVars)
    (rootSpace : Space) (registry : Registry) (parent : Space)
    (hv : ExtractPathVars path paramMap = some v)
    (hvalid : env.validIdentifier v.rootIdentifier = true)
    (hroot : env.findRootSpace v.rootIdentifier = some rootSpace)
    (hreg : env.getRegistry rootSpace.id v.registry = some registry)
    (hparent : env.findSpace registry.parentID = some parent)
    (hrid : rootSpace.identifier ≠ []) (hregid : v.registry ≠ [])
    (hfilter : v.image = [] ∨ v.tag = [] ∨
      MatchArtifactFilter registry.allowedPattern registry.blockedPattern
        (v.image ++ ':' :: v.tag) = true)
    (htyp : registry.typ = .UPSTREAM) :
    GetRegistryInfo env path paramMap false = some (.error .denied) := by
  have hnf : ¬(v.image ≠ [] ∧ v.tag ≠ [] ∧
      (!MatchArtifactFilter registry.allowedPattern registry.blockedPattern
        (v.image ++ ':' :: v.tag)) = true) := by
    intro hc
    rcases hfilter with h1 | h2 | h3
    · exact hc.1 h1
    · exact hc.2.1 h2
    · rw [h3] at hc
      exact absurd hc.2.2 (by simp)
  unfold GetRegistryInfo
  simp only [hv, hvalid, hroot, hreg, hparent, Bool.not_true, Bool.false_eq_true, if_false,
    beq_iff_eq]
  rw [if_neg hrid, if_neg hregid, if_neg hnf, if_pos (by rw [htyp]; rfl)]

theorem registry_info_upstream_denied_witness :
    GetRegistryInfo
      { validIdentifier := fun _ => true
        findRootSpace := fun _ => some ⟨7, "root".data⟩
        getRegistry := fun _ _ => some ⟨3, "reg".data, .UPSTREAM, [], []⟩
        findSpace := fun _ => some ⟨3, "p".data⟩ }
      "/v2/root/reg/foo/manifests/v1".data [] false = some (.error .denied) :=
  registry_info_upstream_denied _ "/v2/root/reg/foo/manifests/v1".data []
    ⟨"root".data, "reg".data, "foo".data, "v1".data, [], "v1".data⟩
    ⟨7, "root".data⟩ ⟨3, "reg".data, .UPSTREAM, [], []⟩ ⟨3, "p".data⟩
    (by decide) rfl rfl rfl rfl (by decide) (by decide)
    (Or.inr (Or.inr (by decide))) rfl

/-! ### Theorems: manifest-list walk -/

/-- C5: while walking a manifest list's child descriptors, a child whose
digest parses but whose referenced manifest cannot be found is skipped —
the walk of the remaining children continues with an unchanged result —
when the owning registry's type is UPSTREAM, and makes the whole walk fail
with a manifest-not-found error when the registry is not UPSTREAM
(provided the children before it process successfully, so that the walk
reaches it). -/
theorem manifest_list_missing_child (env : MEnv) (registry : MRegistry)
    (image : Str) (downloads : Int) (pre post : List ManifestRef)
    (e : ManifestRef) (d : Str)
    (hd : env.newDigest e.dgstStr = some d)
    (hnf : env.findManifestByDigest registry.id image d = .notFound) :
    (registry.typ = .UPSTREAM →
      getManifestList env registry image downloads (pre ++ e :: post) =
        getManifestList env registry image downloads (pre ++ post)) ∧
    (registry.typ ≠ .UPSTREAM →
      (∀ x ∈ pre, processOK env registry image x) →
      getManifestList env registry image downloads (pre ++ e :: post) =
        .error (.manifestNotFound d)) := by
  induction pre with
  | nil =>
    constructor
    · intro ht
      simp only [List.nil_append, getManifestList, hd, hnf, ht]
      rfl
    · intro ht _
      have hbeq : (registry.typ == RegistryType.UPSTREAM) = false := by
        cases hcase : registry.typ
        · rfl
        · exact absurd hcase ht
      simp only [List.nil_append, getManifestList, hd, hnf, hbeq]
      simp
  | cons x pre ih =>
    constructor
    · intro ht
      simp only [List.cons_append, getManifestList, List.append_eq]
      cases hx : env.newDigest x.dgstStr with
      | none => simp only [hx]
      | some dx =>
        simp only [hx]
        cases hfx : env.findManifestByDigest registry.id image dx with
        | found m =>
          simp only [hfx]
          cases hcx : env.getManifestConfig m.configDigest with
          | none => simp only [hcx]
          | some cfg => simp only [hcx, ih.1 ht]
        | notFound =>
          simp only [hfx]
          rw [ih.1 ht]
        | dbErr => simp only [hfx]
    · intro ht hpre
      obtain ⟨dx, m, cfg, hx, hfx, hcx⟩ := hpre x (List.mem_cons_self x pre)
      simp only [List.cons_append, getManifestList, List.append_eq, hx, hfx, hcx,
        ih.2 ht (fun y hy => hpre y (List.mem_cons_of_mem x hy))]

theorem manifest_list_missing_child_witness :
    (getManifestList ⟨fun d => some d, fun _ _ _ => .notFound, fun _ => some none⟩
        ⟨1, .UPSTREAM⟩ "img".data 0 [⟨"sha256:aa".data⟩] = .ok []) ∧
    (getManifestList ⟨fun d => some d, fun _ _ _ => .notFound, fun _ => some none⟩
        ⟨1, .VIRTUAL⟩ "img".data 0 [⟨"sha256:aa".data⟩] =
      .error (.manifestNotFound "sha256:aa".data)) :=
  ⟨(manifest_list_missing_child _ _ _ 0 [] [] ⟨"sha256:aa".data⟩ "sha256:aa".data
      rfl rfl).1 rfl,
   (manifest_list_missing_child _ _ _ 0 [] [] ⟨"sha256:aa".data⟩ "sha256:aa".data
      rfl rfl).2 (by decide) (fun x hx => absurd hx (List.not_mem_nil x))⟩

/-! ### Theorems: registry deletion -/

/-- C6: deleting a registry removes the registry-scoped records — after the
deletion no download-stat, bandwidth-stat or image row of the registry
remains and the registry row itself is gone — while the blob records and
the content-addressed blob objects are exactly unchanged. -/
theorem delete_registry_effects (db : DB) (regID parentID : Int) (ident : Str) :
    ((deleteRegistryWithAudit db regID parentID ident).blobs = db.blobs ∧
     (deleteRegistryWithAudit db regID parentID ident).blobObjects = db.blobObjects) ∧
    (∀ r ∈ (deleteRegistryWithAudit db regID parentID ident).downloadStats,
      r.registryID ≠ regID) ∧
    (∀ r ∈ (deleteRegistryWithAudit db regID parentID ident).bandwidthStats,
      r.registryID ≠ regID) ∧
    (∀ r ∈ (deleteRegistryWithAudit db regID parentID ident).images,
      r.registryID ≠ regID) ∧
    (∀ r ∈ (deleteRegistryWithAudit db regID parentID ident).registries,
      ¬(r.parentID = parentID ∧ r.name = ident)) := by
  refine ⟨⟨rfl, rfl⟩, fun r hr => ?_, fun r hr => ?_, fun r hr => ?_, fun r hr => ?_⟩
  · exact of_decide_eq_true (List.mem_filter.mp hr).2
  · exact of_decide_eq_true (List.mem_filter.mp hr).2
  · exact of_decide_eq_true (List.mem_filter.mp hr).2
  · exact of_decide_eq_true (List.mem_filter.mp hr).2

theorem delete_registry_effects_witness :
    (deleteRegistryWithAudit
      ⟨[⟨5, 1⟩, ⟨2, 2⟩], [], [], [], [⟨"d".data, 1, 3⟩], [], []⟩ 5 1 "reg".data).blobs =
      [⟨"d".data, 1, 3⟩] ∧ (2 : Int) ≠ 5 :=
  ⟨(delete_registry_effects ⟨[⟨5, 1⟩, ⟨2, 2⟩], [], [], [], [⟨"d".data, 1, 3⟩], [], []⟩
      5 1 "reg".data).1.1,
   (delete_registry_effects ⟨[⟨5, 1⟩, ⟨2, 2⟩], [], [], [], [⟨"d".data, 1, 3⟩], [], []⟩
      5 1 "reg".data).2.1 ⟨2, 2⟩ (by decide)⟩

/-! ### Theorems: client-setup placeholder substitution

Supporting lemmas about `replaceAll`.  `refutesP pat x` says every
position of `x` refutes a match of `pat` within `x` itself, so no
occurrence of `pat` starts inside `x`, even one that would run past its
end; `ltFree a` says `a` contains no `<`, so no pattern beginning with `<`
can start inside `a`. -/

/-- No match of `pat` can start inside `x`: every start position is
refuted at some index that still lies within `x`. -/
def refutesP (pat x : Str) : Prop :=
  ∀ i < x.length, ∃ j < pat.length, i + j < x.length ∧ x.getD (i + j) ' ' ≠ pat.getD j ' '

instance (pat x : Str) : Decidable (refutesP pat x) := by
  unfold refutesP
  infer_instance

/-- The string contains no `<` character. -/
def ltFree (s : Str) : Bool :=
  s.all (fun c => !(c == '<'))

theorem replaceAll_nil (pat rep : Str) : replaceAll pat rep [] = [] := by
  simp [replaceAll]

theorem replaceAll_cons_neg {pat : Str} (rep : Str) {c : Char} (cs : Str)
    (h : hasPre pat (c :: cs) = false) :
    replaceAll pat rep (c :: cs) = c :: replaceAll pat rep cs := by
  rw [replaceAll]
  rw [dif_neg (fun hc => by rw [hc.1] at h; cases h)]

theorem hasPre_getD {pat s : Str} (h : hasPre pat s = true) :
    ∀ j < pat.length, s.getD j ' ' = pat.getD j ' ' := by
  induction pat generalizing s with
  | nil => intro j hj; cases hj
  | cons p ps ih =>
    cases s with
    | nil => cases h
    | cons c cs =>
      simp only [hasPre, Bool.and_eq_true, beq_iff_eq] at h
      intro j hj
      cases j with
      | zero => simpa using h.1.symm
      | succ j =>
        simp only [List.getD_cons_succ]
        exact ih h.2 j (by simpa using hj)

theorem replaceAll_skipP (pat rep : Str) {x : Str} (y : Str)
    (hx : refutesP pat x) :
    replaceAll pat rep (x ++ y) = x ++ replaceAll pat rep y := by
  induction x with
  | nil => rfl
  | cons c cs ih =>
    have hpre : hasPre pat ((c :: cs) ++ y) = false := by
      by_contra hcon
      have htrue : hasPre pat ((c :: cs) ++ y) = true := by
        cases hq : hasPre pat ((c :: cs) ++ y)
        · exact absurd hq hcon
        · rfl
      obtain ⟨j, hj, hlt, hne⟩ := hx 0 (by simp)
      have h1 := hasPre_getD htrue j hj
      rw [List.getD_append _ _ _ _ (by simpa using hlt)] at h1
      exact hne (by simpa using h1)
    rw [List.cons_append, replaceAll_cons_neg rep (cs ++ y) hpre]
    rw [ih]
    · rfl
    · intro i hi
      obtain ⟨j, hj, hlt, hne⟩ := hx (i + 1) (by simp; omega)
      refine ⟨j, hj, by simp at hlt ⊢; omega, ?_⟩
      have : (c :: cs).getD (i + 1 + j) ' ' = cs.getD (i + j) ' ' := by
        have : i + 1 + j = (i + j) + 1 := by omega
        rw [this, List.getD_cons_succ]
      rw [this] at hne
      exact hne

theorem replaceAll_noop (pat rep : Str) {x : Str} (hx : refutesP pat x) :
    replaceAll pat rep x = x := by
  have := replaceAll_skipP pat rep [] hx
  simpa [replaceAll_nil] using this

theorem hasPre_append_self (pat y : Str) : hasPre pat (pat ++ y) = true := by
  induction pat with
  | nil => rfl
  | cons p ps ih => simp [hasPre, ih]

theorem replaceAll_self (pat rep : Str) (y : Str) (hlen : 0 < pat.length) :
    replaceAll pat rep (pat ++ y) = rep ++ replaceAll pat rep y := by
  cases hp : pat ++ y with
  | nil =>
    exfalso
    cases pat with
    | nil => exact Nat.lt_irrefl 0 hlen
    | cons p ps => simp at hp
  | cons c cs =>
    rw [replaceAll]
    rw [dif_pos ⟨by rw [← hp]; exact hasPre_append_self pat y, hlen⟩]
    rw [← hp, List.drop_left]

theorem ltFree_cons {c : Char} {a : Str} (h : ltFree (c :: a) = true) :
    c ≠ '<' ∧ ltFree a = true := by
  simp only [ltFree, List.all_cons, Bool.and_eq_true, Bool.not_eq_true', beq_eq_false_iff_ne] at h
  exact ⟨h.1, by simp [ltFree, h.2]⟩

theorem replaceAll_skip_ltFree {pat : Str} (rep : Str) {a : Str} (y : Str)
    (hp : pat.head? = some '<') (ha : ltFree a = true) :
    replaceAll pat rep (a ++ y) = a ++ replaceAll pat rep y := by
  induction a with
  | nil => rfl
  | cons c cs ih =>
    obtain ⟨hc, hcs⟩ := ltFree_cons ha
    have hpre : hasPre pat ((c :: cs) ++ y) = false := by
      cases pat with
      | nil => cases hp
      | cons p ps =>
        have hpc : p = '<' := by simpa using hp
        simp only [List.cons_append, hasPre, Bool.and_eq_true, beq_iff_eq]
        simp only [Bool.and_eq_false_iff]
        left
        simp only [beq_eq_false_iff_ne]
        rw [hpc]
        exact fun hcon => hc hcon.symm
    rw [List.cons_append, replaceAll_cons_neg rep (cs ++ y) hpre, ih hcs]
    rfl

theorem replaceAll_noop_ltFree {pat : Str} (rep : Str) {a : Str}
    (hp : pat.head? = some '<') (ha : ltFree a = true) :
    replaceAll pat rep a = a := by
  have := replaceAll_skip_ltFree rep [] hp ha
  simpa [replaceAll_nil] using this

theorem ltFree_getHost {h : Str} (hh : ltFree h = true) : ltFree (GetHost h) = true := by
  simp only [ltFree, List.all_eq_true] at hh ⊢
  intro c hc
  exact hh c ((List.takeWhile_sublist _).subset hc)

theorem replaceAll_whole (pat rep : Str) (hlen : 0 < pat.length) :
    replaceAll pat rep pat = rep := by
  have h := replaceAll_self pat rep [] hlen
  rw [List.append_nil] at h
  rw [h, replaceAll_nil, List.append_nil]

theorem applyWhen_pos {b : Prop} [Decidable b] (pat rep v : Str) (hb : b) :
    applyWhen b pat rep v = replaceAll pat rep v := if_pos hb

theorem applyOpt_some (pat rep v : Str) :
    applyOpt pat (some rep) v = replaceAll pat rep v := rfl

theorem applyWhen_blank {b : Prop} [Decidable b] (pat rep : Str) :
    applyWhen b pat rep [] = [] := by
  unfold applyWhen
  split
  · exact replaceAll_nil _ _
  · rfl

theorem applyOpt_blank (pat : Str) (o : Option Str) : applyOpt pat o [] = [] := by
  cases o
  · rfl
  · exact replaceAll_nil _ _

theorem substValue_blank (u h rn : Str) (im tg : Option Str) :
    substValue u h rn im tg [] = [] := by
  unfold substValue
  rw [applyWhen_blank, applyWhen_blank, applyWhen_blank, applyWhen_blank, applyOpt_blank,
    applyOpt_blank]

theorem substLabel_blank (u : Str) : substLabel u [] = [] := by
  unfold substLabel
  exact applyWhen_blank _ _

theorem substLabel_username {u : Str} (hu : u ≠ []) :
    substLabel u "Username: <USERNAME>".data = "Username: ".data ++ u := by
  unfold substLabel
  rw [applyWhen_pos _ _ _ hu]
  rw [show "Username: <USERNAME>".data =
    "Username: ".data ++ ("<USERNAME>".data ++ []) from rfl]
  rw [replaceAll_skipP "<USERNAME>".data u _ (by decide)]
  rw [replaceAll_self "<USERNAME>".data u _ (by decide)]
  rw [replaceAll_nil]
  simp

theorem substLabel_password (u : Str) :
    substLabel u "Password: *see step 2*".data = "Password: *see step 2*".data := by
  unfold substLabel applyWhen
  split
  · exact replaceAll_noop _ _ (by decide)
  · rfl

theorem substValue_username {u h rn : Str} (i t : Str) (hu : u ≠ []) (hh : h ≠ [])
    (hr : rn ≠ []) (hfu : ltFree u = true) :
    substValue u h rn (some i) (some t) "<USERNAME>".data = u := by
  unfold substValue
  rw [applyOpt_some, applyOpt_some, applyWhen_pos _ _ _ hr, applyWhen_pos _ _ _ hh,
    applyWhen_pos _ _ _ hh, applyWhen_pos _ _ _ hu]
  rw [replaceAll_whole _ _ (by decide)]
  rw [replaceAll_noop_ltFree h (by rfl) hfu]
  rw [replaceAll_noop_ltFree (GetHost h) (by rfl) hfu]
  rw [replaceAll_noop_ltFree rn (by rfl) hfu]
  rw [replaceAll_noop_ltFree i (by rfl) hfu]
  rw [replaceAll_noop_ltFree t (by rfl) hfu]

theorem substValue_helmLogin {u h rn : Str} (i t : Str) (hu : u ≠ []) (hh : h ≠ [])
    (hr : rn ≠ []) (hfh : ltFree h = true) :
    substValue u h rn (some i) (some t) "helm registry login <LOGIN_HOSTNAME>".data =
      "helm registry login ".data ++ GetHost h := by
  unfold substValue
  rw [applyOpt_some, applyOpt_some, applyWhen_pos _ _ _ hr, applyWhen_pos _ _ _ hh,
    applyWhen_pos _ _ _ hh, applyWhen_pos _ _ _ hu]
  rw [replaceAll_noop "<USERNAME>".data u (by decide)]
  rw [replaceAll_noop "<HOSTNAME>".data h (by decide)]
  rw [show "helm registry login <LOGIN_HOSTNAME>".data =
    "helm registry login ".data ++ ("<LOGIN_HOSTNAME>".data ++ []) from rfl]
  rw [replaceAll_skipP "<LOGIN_HOSTNAME>".data (GetHost h) _ (by decide)]
  rw [replaceAll_self "<LOGIN_HOSTNAME>".data (GetHost h) _ (by decide)]
  rw [replaceAll_nil]
  rw [replaceAll_skipP "<REGISTRY_NAME>".data rn _ (by decide)]
  rw [replaceAll_skip_ltFree rn _ (by rfl) (ltFree_getHost hfh)]
  rw [replaceAll_nil]
  rw [replaceAll_skipP "<IMAGE_NAME>".data i _ (by decide)]
  rw [replaceAll_skip_ltFree i _ (by rfl) (ltFree_getHost hfh)]
  rw [replaceAll_nil]
  rw [replaceAll_skipP "<TAG>".data t _ (by decide)]
  rw [replaceAll_skip_ltFree t _ (by rfl) (ltFree_getHost hfh)]
  rw [replaceAll_nil]
  simp

theorem substValue_dockerLogin {u h rn : Str} (i t : Str) (hu : u ≠ []) (hh : h ≠ [])
    (hr : rn ≠ []) (hfh : ltFree h = true) :
    substValue u h rn (some i) (some t) "docker login <LOGIN_HOSTNAME>".data =
      "docker login ".data ++ GetHost h := by
  unfold substValue
  rw [applyOpt_some, applyOpt_some, applyWhen_pos _ _ _ hr, applyWhen_pos _ _ _ hh,
    applyWhen_pos _ _ _ hh, applyWhen_pos _ _ _ hu]
  rw [replaceAll_noop "<USERNAME>".data u (by decide)]
  rw [replaceAll_noop "<HOSTNAME>".data h (by decide)]
  rw [show "docker login <LOGIN_HOSTNAME>".data =
    "docker login ".data ++ ("<LOGIN_HOSTNAME>".data ++ []) from rfl]
  rw [replaceAll_skipP "<LOGIN_HOSTNAME>".data (GetHost h) _ (by decide)]
  rw [replaceAll_self "<LOGIN_HOSTNAME>".data (GetHost h) _ (by decide)]
  rw [replaceAll_nil]
  rw [replaceAll_skipP "<REGISTRY_NAME>".data rn _ (by decide)]
  rw [replaceAll_skip_ltFree rn _ (by rfl) (ltFree_getHost hfh)]
  rw [replaceAll_nil]
  rw [replaceAll_skipP "<IMAGE_NAME>".data i _ (by decide)]
  rw [replaceAll_skip_ltFree i _ (by rfl) (ltFree_getHost hfh)]
  rw [replaceAll_nil]
  rw [replaceAll_skipP "<TAG>".data t _ (by decide)]
  rw [replaceAll_skip_ltFree t _ (by rfl) (ltFree_getHost hfh)]
  rw [replaceAll_nil]
  simp

theorem substValue_helmPush {u h rn : Str} (i t : Str) (hu : u ≠ []) (hh : h ≠ [])
    (hr : rn ≠ []) (hfh : ltFree h = true) (hfr : ltFree rn = true) :
    substValue u h rn (some i) (some t)
      "helm push <CHART_TGZ_FILE> oci://<HOSTNAME>/<REGISTRY_NAME>".data =
      "helm push <CHART_TGZ_FILE> oci://".data ++ (h ++ ("/".data ++ rn)) := by
  unfold substValue
  rw [applyOpt_some, applyOpt_some, applyWhen_pos _ _ _ hr, applyWhen_pos _ _ _ hh,
    applyWhen_pos _ _ _ hh, applyWhen_pos _ _ _ hu]
  rw [replaceAll_noop "<USERNAME>".data u (by decide)]
  rw [show "helm push <CHART_TGZ_FILE> oci://<HOSTNAME>/<REGISTRY_NAME>".data =
    "helm push <CHART_TGZ_FILE> oci://".data ++ ("<HOSTNAME>".data ++
      "/<REGISTRY_NAME>".data) from rfl]
  rw [replaceAll_skipP "<HOSTNAME>".data h _ (by decide)]
  rw [replaceAll_self "<HOSTNAME>".data h _ (by decide)]
  rw [replaceAll_noop "<HOSTNAME>".data h (by decide)]
  rw [replaceAll_skipP "<LOGIN_HOSTNAME>".data (GetHost h) _ (by decide)]
  rw [replaceAll_skip_ltFree (GetHost h) _ (by rfl) hfh]
  rw [replaceAll_noop "<LOGIN_HOSTNAME>".data (GetHost h) (by decide)]
  rw [replaceAll_skipP "<REGISTRY_NAME>".data rn _ (by decide)]
  rw [replaceAll_skip_ltFree rn _ (by rfl) hfh]
  rw [show "/<REGISTRY_NAME>".data = "/".data ++ ("<REGISTRY_NAME>".data ++ []) from rfl]
  rw [replaceAll_skipP "<REGISTRY_NAME>".data rn _ (by decide)]
  rw [replaceAll_self "<REGISTRY_NAME>".data rn _ (by decide)]
  rw [replaceAll_nil]
  rw [replaceAll_skipP "<IMAGE_NAME>".data i _ (by decide)]
  rw [replaceAll_skip_ltFree i _ (by rfl) hfh]
  rw [replaceAll_skipP "<IMAGE_NAME>".data i _ (by decide)]
  rw [replaceAll_skip_ltFree i _ (by rfl) hfr]
  rw [replaceAll_nil]
  rw [replaceAll_skipP "<TAG>".data t _ (by decide)]
  rw [replaceAll_skip_ltFree t _ (by rfl) hfh]
  rw [replaceAll_skipP "<TAG>".data t _ (by decide)]
  rw [replaceAll_skip_ltFree t _ (by rfl) hfr]
  rw [replaceAll_nil]
  simp

theorem substValue_helmPull {u h rn : Str} (i t : Str) (hu : u ≠ []) (hh : h ≠ [])
    (hr : rn ≠ []) (hfh : ltFree h = true) (hfr : ltFree rn = true)
    (hfi : ltFree i = true) :
    substValue u h rn (some i) (some t)
      "helm pull oci://<HOSTNAME>/<REGISTRY_NAME>/<IMAGE_NAME> --version <TAG>".data
      = "helm pull oci://".data ++ (h ++ ("/".data ++ (rn ++ ("/".data ++ (i ++
          (" --version ".data ++ t)))))) := by
  unfold substValue
  rw [applyOpt_some, applyOpt_some, applyWhen_pos _ _ _ hr, applyWhen_pos _ _ _ hh,
    applyWhen_pos _ _ _ hh, applyWhen_pos _ _ _ hu]
  rw [replaceAll_noop "<USERNAME>".data u (by decide)]
  rw [show "helm pull oci://<HOSTNAME>/<REGISTRY_NAME>/<IMAGE_NAME> --version <TAG>".data =
    "helm pull oci://".data ++ ("<HOSTNAME>".data ++
      "/<REGISTRY_NAME>/<IMAGE_NAME> --version <TAG>".data) from rfl]
  rw [replaceAll_skipP "<HOSTNAME>".data h _ (by decide)]
  rw [replaceAll_self "<HOSTNAME>".data h _ (by decide)]
  rw [replaceAll_noop "<HOSTNAME>".data h (by decide)]
  rw [replaceAll_skipP "<LOGIN_HOSTNAME>".data (GetHost h) _ (by decide)]
  rw [replaceAll_skip_ltFree (GetHost h) _ (by rfl) hfh]
  rw [replaceAll_noop "<LOGIN_HOSTNAME>".data (GetHost h) (by decide)]
  rw [replaceAll_skipP "<REGISTRY_NAME>".data rn _ (by decide)]
  rw [replaceAll_skip_ltFree rn _ (by rfl) hfh]
  rw [show "/<REGISTRY_NAME>/<IMAGE_NAME> --version <TAG>".data =
    "/".data ++ ("<REGISTRY_NAME>".data ++ "/<IMAGE_NAME> --version <TAG>".data) from rfl]
  rw [replaceAll_skipP "<REGISTRY_NAME>".data rn _ (by decide)]
  rw [replaceAll_self "<REGISTRY_NAME>".data rn _ (by decide)]
  rw [replaceAll_noop "<REGISTRY_NAME>".data rn (by decide)]
  rw [replaceAll_skipP "<IMAGE_NAME>".data i _ (by decide)]
  rw [replaceAll_skip_ltFree i _ (by rfl) hfh]
  rw [replaceAll_skipP "<IMAGE_NAME>".data i _ (by decide)]
  rw [replaceAll_skip_ltFree i _ (by rfl) hfr]
  rw [show "/<IMAGE_NAME> --version <TAG>".data =
    "/".data ++ ("<IMAGE_NAME>".data ++ " --version <TAG>".data) from rfl]
  rw [replaceAll_skipP "<IMAGE_NAME>".data i _ (by decide)]
  rw [replaceAll_self "<IMAGE_NAME>".data i _ (by decide)]
  rw [replaceAll_noop "<IMAGE_NAME>".data i (by decide)]
  rw [replaceAll_skipP "<TAG>".data t _ (by decide)]
  rw [replaceAll_skip_ltFree t _ (by rfl) hfh]
  rw [replaceAll_skipP "<TAG>".data t _ (by decide)]
  rw [replaceAll_skip_ltFree t _ (by rfl) hfr]
  rw [replaceAll_skipP "<TAG>".data t _ (by decide)]
  rw [replaceAll_skip_ltFree t _ (by rfl) hfi]
  rw [show " --version <TAG>".data = " --version ".data ++ ("<TAG>".data ++ []) from rfl]
  rw [replaceAll_skipP "<TAG>".data t _ (by decide)]
  rw [replaceAll_self "<TAG>".data t _ (by decide)]
  rw [replaceAll_nil]
  simp

theorem substValue_dockerPull {u h rn : Str} (i t : Str) (hu : u ≠ []) (hh : h ≠ [])
    (hr : rn ≠ []) (hfh : ltFree h = true) (hfr : ltFree rn = true)
    (hfi : ltFree i = true) :
    substValue u h rn (some i) (some t)
      "docker pull <HOSTNAME>/<REGISTRY_NAME>/<IMAGE_NAME>:<TAG>".data
      = "docker pull ".data ++ (h ++ ("/".data ++ (rn ++ ("/".data ++ (i ++
          (":".data ++ t)))))) := by
  unfold substValue
  rw [applyOpt_some, applyOpt_some, applyWhen_pos _ _ _ hr, applyWhen_pos _ _ _ hh,
    applyWhen_pos _ _ _ hh, applyWhen_pos _ _ _ hu]
  rw [replaceAll_noop "<USERNAME>".data u (by decide)]
  rw [show "docker pull <HOSTNAME>/<REGISTRY_NAME>/<IMAGE_NAME>:<TAG>".data =
    "docker pull ".data ++ ("<HOSTNAME>".data ++
      "/<REGISTRY_NAME>/<IMAGE_NAME>:<TAG>".data) from rfl]
  rw [replaceAll_skipP "<HOSTNAME>".data h _ (by decide)]
  rw [replaceAll_self "<HOSTNAME>".data h _ (by decide)]
  rw [replaceAll_noop "<HOSTNAME>".data h (by decide)]
  rw [replaceAll_skipP "<LOGIN_HOSTNAME>".data (GetHost h) _ (by decide)]
  rw [replaceAll_skip_ltFree (GetHost h) _ (by rfl) hfh]
  rw [replaceAll_noop "<LOGIN_HOSTNAME>".data (GetHost h) (by decide)]
  rw [replaceAll_skipP "<REGISTRY_NAME>".data rn _ (by decide)]
  rw [replaceAll_skip_ltFree rn _ (by rfl) hfh]
  rw [show "/<REGISTRY_NAME>/<IMAGE_NAME>:<TAG>".data =
    "/".data ++ ("<REGISTRY_NAME>".data ++ "/<IMAGE_NAME>:<TAG>".data) from rfl]
  rw [replaceAll_skipP "<REGISTRY_NAME>".data rn _ (by decide)]
  rw [replaceAll_self "<REGISTRY_NAME>".data rn _ (by decide)]
  rw [replaceAll_noop "<REGISTRY_NAME>".data rn (by decide)]
  rw [replaceAll_skipP "<IMAGE_NAME>".data i _ (by decide)]
  rw [replaceAll_skip_ltFree i _ (by rfl) hfh]
  rw [replaceAll_skipP "<IMAGE_NAME>".data i _ (by decide)]
  rw [replaceAll_skip_ltFree i _ (by rfl) hfr]
  rw [show "/<IMAGE_NAME>:<TAG>".data =
    "/".data ++ ("<IMAGE_NAME>".data ++ ":<TAG>".data) from rfl]
  rw [replaceAll_skipP "<IMAGE_NAME>".data i _ (by decide)]
  rw [replaceAll_self "<IMAGE_NAME>".data i _ (by decide)]
  rw [replaceAll_noop "<IMAGE_NAME>".data i (by decide)]
  rw [replaceAll_skipP "<TAG>".data t _ (by decide)]
  rw [replaceAll_skip_ltFree t _ (by rfl) hfh]
  rw [replaceAll_skipP "<TAG>".data t _ (by decide)]
  rw [replaceAll_skip_ltFree t _ (by rfl) hfr]
  rw [replaceAll_skipP "<TAG>".data t _ (by decide)]
  rw [replaceAll_skip_ltFree t _ (by rfl) hfi]
  rw [show ":<TAG>".data = ":".data ++ ("<TAG>".data ++ []) from rfl]
  rw [replaceAll_skipP "<TAG>".data t _ (by decide)]
  rw [replaceAll_self "<TAG>".data t _ (by decide)]
  rw [replaceAll_nil]
  simp

theorem substValue_dockerPush {u h rn : Str} (i t : Str) (hu : u ≠ []) (hh : h ≠ [])
    (hr : rn ≠ []) (hfh : ltFree h = true) (hfr : ltFree rn = true)
    (hfi : ltFree i = true) :
    substValue u h rn (some i) (some t)
      "docker push <HOSTNAME>/<REGISTRY_NAME>/<IMAGE_NAME>:<TAG>".data
      = "docker push ".data ++ (h ++ ("/".data ++ (rn ++ ("/".data ++ (i ++
          (":".data ++ t)))))) := by
  unfold substValue
  rw [applyOpt_some, applyOpt_some, applyWhen_pos _ _ _ hr, applyWhen_pos _ _ _ hh,
    applyWhen_pos _ _ _ hh, applyWhen_pos _ _ _ hu]
  rw [replaceAll_noop "<USERNAME>".data u (by decide)]
  rw [show "docker push <HOSTNAME>/<REGISTRY_NAME>/<IMAGE_NAME>:<TAG>".data =
    "docker push ".data ++ ("<HOSTNAME>".data ++
      "/<REGISTRY_NAME>/<IMAGE_NAME>:<TAG>".data) from rfl]
  rw [replaceAll_skipP "<HOSTNAME>".data h _ (by decide)]
  rw [replaceAll_self "<HOSTNAME>".data h _ (by decide)]
  rw [replaceAll_noop "<HOSTNAME>".data h (by decide)]
  rw [replaceAll_skipP "<LOGIN_HOSTNAME>".data (GetHost h) _ (by decide)]
  rw [replaceAll_skip_ltFree (GetHost h) _ (by rfl) hfh]
  rw [replaceAll_noop "<LOGIN_HOSTNAME>".data (GetHost h) (by decide)]
  rw [replaceAll_skipP "<REGISTRY_NAME>".data rn _ (by decide)]
  rw [replaceAll_skip_ltFree rn _ (by rfl) hfh]
  rw [show "/<REGISTRY_NAME>/<IMAGE_NAME>:<TAG>".data =
    "/".data ++ ("<REGISTRY_NAME>".data ++ "/<IMAGE_NAME>:<TAG>".data) from rfl]
  rw [replaceAll_skipP "<REGISTRY_NAME>".data rn _ (by decide)]
  rw [replaceAll_self "<REGISTRY_NAME>".data rn _ (by decide)]
  rw [replaceAll_noop "<REGISTRY_NAME>".data rn (by decide)]
  rw [replaceAll_skipP "<IMAGE_NAME>".data i _ (by decide)]
  rw [replaceAll_skip_ltFree i _ (by rfl) hfh]
  rw [replaceAll_skipP "<IMAGE_NAME>".data i _ (by decide)]
  rw [replaceAll_skip_ltFree i _ (by rfl) hfr]
  rw [show "/<IMAGE_NAME>:<TAG>".data =
    "/".data ++ ("<IMAGE_NAME>".data ++ ":<TAG>".data) from rfl]
  rw [replaceAll_skipP "<IMAGE_NAME>".data i _ (by decide)]
  rw [replaceAll_self "<IMAGE_NAME>".data i _ (by decide)]
  rw [replaceAll_noop "<IMAGE_NAME>".data i (by decide)]
  rw [replaceAll_skipP "<TAG>".data t _ (by decide)]
  rw [replaceAll_skip_ltFree t _ (by rfl) hfh]
  rw [replaceAll_skipP "<TAG>".data t _ (by decide)]
  rw [replaceAll_skip_ltFree t _ (by rfl) hfr]
  rw [replaceAll_skipP "<TAG>".data t _ (by decide)]
  rw [replaceAll_skip_ltFree t _ (by rfl) hfi]
  rw [show ":<TAG>".data = ":".data ++ ("<TAG>".data ++ []) from rfl]
  rw [replaceAll_skipP "<TAG>".data t _ (by decide)]
  rw [replaceAll_self "<TAG>".data t _ (by decide)]
  rw [replaceAll_nil]
  simp

theorem substValue_dockerTag {u h rn : Str} (i t : Str) (hu : u ≠ []) (hh : h ≠ [])
    (hr : rn ≠ []) (hfh : ltFree h = true) (hfr : ltFree rn = true)
    (hfi : ltFree i = true) :
    substValue u h rn (some i) (some t)
      "docker tag <IMAGE_NAME>:<TAG> <HOSTNAME>/<REGISTRY_NAME>/<IMAGE_NAME>:<TAG>".data
      = "docker tag ".data ++ (i ++ (":".data ++ (t ++ (" ".data ++ (h ++
          ("/".data ++ (rn ++ ("/".data ++ (i ++ (":".data ++ t)))))))))) := by
  unfold substValue
  rw [applyOpt_some, applyOpt_some, applyWhen_pos _ _ _ hr, applyWhen_pos _ _ _ hh,
    applyWhen_pos _ _ _ hh, applyWhen_pos _ _ _ hu]
  rw [replaceAll_noop "<USERNAME>".data u (by decide)]
  rw [show
    "docker tag <IMAGE_NAME>:<TAG> <HOSTNAME>/<REGISTRY_NAME>/<IMAGE_NAME>:<TAG>".data =
    "docker tag <IMAGE_NAME>:<TAG> ".data ++ ("<HOSTNAME>".data ++
      "/<REGISTRY_NAME>/<IMAGE_NAME>:<TAG>".data) from rfl]
  rw [replaceAll_skipP "<HOSTNAME>".data h _ (by decide)]
  rw [replaceAll_self "<HOSTNAME>".data h _ (by decide)]
  rw [replaceAll_noop "<HOSTNAME>".data h (by decide)]
  rw [replaceAll_skipP "<LOGIN_HOSTNAME>".data (GetHost h) _ (by decide)]
  rw [replaceAll_skip_ltFree (GetHost h) _ (by rfl) hfh]
  rw [replaceAll_noop "<LOGIN_HOSTNAME>".data (GetHost h) (by decide)]
  rw [replaceAll_skipP "<REGISTRY_NAME>".data rn _ (by decide)]
  rw [replaceAll_skip_ltFree rn _ (by rfl) hfh]
  rw [show "/<REGISTRY_NAME>/<IMAGE_NAME>:<TAG>".data =
    "/".data ++ ("<REGISTRY_NAME>".data ++ "/<IMAGE_NAME>:<TAG>".data) from rfl]
  rw [replaceAll_skipP "<REGISTRY_NAME>".data rn _ (by decide)]
  rw [replaceAll_self "<REGISTRY_NAME>".data rn _ (by decide)]
  rw [replaceAll_noop "<REGISTRY_NAME>".data rn (by decide)]
  rw [show "docker tag <IMAGE_NAME>:<TAG> ".data =
    "docker tag ".data ++ ("<IMAGE_NAME>".data ++ ":<TAG> ".data) from rfl]
  rw [List.append_assoc, List.append_assoc]
  rw [replaceAll_skipP "<IMAGE_NAME>".data i _ (by decide)]
  rw [replaceAll_self "<IMAGE_NAME>".data i _ (by decide)]
  rw [replaceAll_skipP "<IMAGE_NAME>".data i _ (by decide)]
  rw [replaceAll_skip_ltFree i _ (by rfl) hfh]
  rw [replaceAll_skipP "<IMAGE_NAME>".data i _ (by decide)]
  rw [replaceAll_skip_ltFree i _ (by rfl) hfr]
  rw [show "/<IMAGE_NAME>:<TAG>".data =
    "/".data ++ ("<IMAGE_NAME>".data ++ ":<TAG>".data) from rfl]
  rw [replaceAll_skipP "<IMAGE_NAME>".data i _ (by decide)]
  rw [replaceAll_self "<IMAGE_NAME>".data i _ (by decide)]
  rw [replaceAll_noop "<IMAGE_NAME>".data i (by decide)]
  rw [replaceAll_skipP "<TAG>".data t _ (by decide)]
  rw [replaceAll_skip_ltFree t _ (by rfl) hfi]
  rw [show ":<TAG> ".data = ":".data ++ ("<TAG>".data ++ " ".data) from rfl]
  rw [List.append_assoc, List.append_assoc]
  rw [replaceAll_skipP "<TAG>".data t _ (by decide)]
  rw [replaceAll_self "<TAG>".data t _ (by decide)]
  rw [replaceAll_skipP "<TAG>".data t _ (by decide)]
  rw [replaceAll_skip_ltFree t _ (by rfl) hfh]
  rw [replaceAll_skipP "<TAG>".data t _ (by decide)]
  rw [replaceAll_skip_ltFree t _ (by rfl) hfr]
  rw [replaceAll_skipP "<TAG>".data t _ (by decide)]
  rw [replaceAll_skip_ltFree t _ (by rfl) hfi]
  rw [show ":<TAG>".data = ":".data ++ ("<TAG>".data ++ []) from rfl]
  rw [replaceAll_skipP "<TAG>".data t _ (by decide)]
  rw [replaceAll_self "<TAG>".data t _ (by decide)]
  rw [replaceAll_nil]
  simp

/-- C7: client-setup generation emits the helm login/push/pull instructions
when the registry's package type is HELM and the docker instructions
otherwise; every placeholder token among `<USERNAME>`, `<HOSTNAME>`,
`<LOGIN_HOSTNAME>`, `<REGISTRY_NAME>`, `<IMAGE_NAME>`, `<TAG>` occurring in
the emitted commands is replaced by the corresponding value from the
session and request context, all of which are present here (username,
hostname and registry name non-empty, image and tag supplied; the values
are free of the `<` character, as real identifiers and hostnames are). -/
theorem client_setup_commands (pt u h rn i t : Str)
    (hu : u ≠ []) (hh : h ≠ []) (hr : rn ≠ [])
    (hfu : ltFree u = true) (hfh : ltFree h = true) (hfr : ltFree rn = true)
    (hfi : ltFree i = true) :
    (pt = "HELM".data →
      (GenerateClientSetupDetails pt u h rn (some i) (some t)).mainHeader =
        "Helm Client Setup".data ∧
      cmdValues (GenerateClientSetupDetails pt u h rn (some i) (some t)) =
        [ "helm registry login ".data ++ GetHost h,
          u, [],
          "helm push <CHART_TGZ_FILE> oci://".data ++ (h ++ ("/".data ++ rn)),
          "helm pull oci://".data ++ (h ++ ("/".data ++ (rn ++ ("/".data ++ (i ++
            (" --version ".data ++ t)))))) ] ∧
      cmdLabels (GenerateClientSetupDetails pt u h rn (some i) (some t)) =
        [[], "Username: ".data ++ u, "Password: *see step 2*".data, [], []]) ∧
    (pt ≠ "HELM".data →
      (GenerateClientSetupDetails pt u h rn (some i) (some t)).mainHeader =
        "Docker Client Setup".data ∧
      cmdValues (GenerateClientSetupDetails pt u h rn (some i) (some t)) =
        [ "docker login ".data ++ GetHost h,
          u, [],
          "docker tag ".data ++ (i ++ (":".data ++ (t ++ (" ".data ++ (h ++
            ("/".data ++ (rn ++ ("/".data ++ (i ++ (":".data ++ t)))))))))),
          "docker push ".data ++ (h ++ ("/".data ++ (rn ++ ("/".data ++ (i ++
            (":".data ++ t)))))),
          "docker pull ".data ++ (h ++ ("/".data ++ (rn ++ ("/".data ++ (i ++
            (":".data ++ t)))))) ] ∧
      cmdLabels (GenerateClientSetupDetails pt u h rn (some i) (some t)) =
        [[], "Username: ".data ++ u, "Password: *see step 2*".data, [], [], []]) := by
  constructor
  · intro hpt
    have he : (pt == "HELM".data) = true := by rw [hpt]; simp
    unfold GenerateClientSetupDetails
    rw [if_pos he]
    refine ⟨rfl, ?_, ?_⟩
    · rw [show cmdValues (replacePlaceholders helmTemplate u h rn (some i) (some t)) =
        [substValue u h rn (some i) (some t) "helm registry login <LOGIN_HOSTNAME>".data,
         substValue u h rn (some i) (some t) "<USERNAME>".data,
         substValue u h rn (some i) (some t) [],
         substValue u h rn (some i) (some t)
           "helm push <CHART_TGZ_FILE> oci://<HOSTNAME>/<REGISTRY_NAME>".data,
         substValue u h rn (some i) (some t)
           "helm pull oci://<HOSTNAME>/<REGISTRY_NAME>/<IMAGE_NAME> --version <TAG>".data]
        from rfl]
      rw [substValue_helmLogin i t hu hh hr hfh,
        substValue_username i t hu hh hr hfu,
        substValue_blank u h rn (some i) (some t),
        substValue_helmPush i t hu hh hr hfh hfr,
        substValue_helmPull i t hu hh hr hfh hfr hfi]
    · rw [show cmdLabels (replacePlaceholders helmTemplate u h rn (some i) (some t)) =
        [substLabel u [], substLabel u "Username: <USERNAME>".data,
         substLabel u "Password: *see step 2*".data, substLabel u [], substLabel u []]
        from rfl]
      rw [substLabel_blank u, substLabel_username hu, substLabel_password u]
  · intro hpt
    have he : (pt == "HELM".data) = false := by
      cases hq : pt == "HELM".data
      · rfl
      · exact absurd (eq_of_beq hq) hpt
    unfold GenerateClientSetupDetails
    rw [if_neg (by rw [he]; simp)]
    refine ⟨rfl, ?_, ?_⟩
    · rw [show cmdValues (replacePlaceholders dockerTemplate u h rn (some i) (some t)) =
        [substValue u h rn (some i) (some t) "docker login <LOGIN_HOSTNAME>".data,
         substValue u h rn (some i) (some t) "<USERNAME>".data,
         substValue u h rn (some i) (some t) [],
         substValue u h rn (some i) (some t)
           "docker tag <IMAGE_NAME>:<TAG> <HOSTNAME>/<REGISTRY_NAME>/<IMAGE_NAME>:<TAG>".data,
         substValue u h rn (some i) (some t)
           "docker push <HOSTNAME>/<REGISTRY_NAME>/<IMAGE_NAME>:<TAG>".data,
         substValue u h rn (some i) (some t)
           "docker pull <HOSTNAME>/<REGISTRY_NAME>/<IMAGE_NAME>:<TAG>".data]
        from rfl]
      rw [substValue_dockerLogin i t hu hh hr hfh,
        substValue_username i t hu hh hr hfu,
        substValue_blank u h rn (some i) (some t),
        substValue_dockerTag i t hu hh hr hfh hfr hfi,
        substValue_dockerPush i t hu hh hr hfh hfr hfi,
        substValue_dockerPull i t hu hh hr hfh hfr hfi]
    · rw [show cmdLabels (replacePlaceholders dockerTemplate u h rn (some i) (some t)) =
        [substLabel u [], substLabel u "Username: <USERNAME>".data,
         substLabel u "Password: *see step 2*".data, substLabel u [], substLabel u [],
         substLabel u []]
        from rfl]
      rw [substLabel_blank u, substLabel_username hu, substLabel_password u]

theorem client_setup_commands_witness :
    cmdValues (GenerateClientSetupDetails "HELM".data "alice".data "host.io/pkg".data
        "reg1".data (some "img".data) (some "1.2".data)) =
      [ "helm registry login ".data ++ GetHost "host.io/pkg".data,
        "alice".data, [],
        "helm push <CHART_TGZ_FILE> oci://".data ++ ("host.io/pkg".data ++
          ("/".data ++ "reg1".data)),
        "helm pull oci://".data ++ ("host.io/pkg".data ++ ("/".data ++ ("reg1".data ++
          ("/".data ++ ("img".data ++ (" --version ".data ++ "1.2".data)))))) ] ∧
    (GenerateClientSetupDetails "DOCKER".data "alice".data "host.io/pkg".data "reg1".data
        (some "img".data) (some "1.2".data)).mainHeader = "Docker Client Setup".data :=
  ⟨((client_setup_commands "HELM".data "alice".data "host.io/pkg".data "reg1".data
      "img".data "1.2".data (by decide) (by decide) (by decide) (by decide) (by decide)
      (by decide) (by decide)).1 rfl).2.1,
   ((client_setup_commands "DOCKER".data "alice".data "host.io/pkg".data "reg1".data
      "img".data "1.2".data (by decide) (by decide) (by decide) (by decide) (by decide)
      (by decide) (by decide)).2 (by decide)).1⟩

end Harness
